import Mathlib

/-
Verification development for a WhatsApp e-commerce chatbot.
The definitions below are shallow embeddings of the JavaScript source:
conversationService.js (flow selection, flow handlers, session handling,
context updates, the message-processing pipeline), nlpService.js (the
offline fallback classifier), queueService.js (job options and the retry
policy of the message queue) and webhookController.js (the Twilio webhook
ingress).  Numbers that the source compares with 0.7 / 0.4 / 0.1 are
modelled as rationals; fallible asynchronous steps are modelled with
Except; external collaborators (database, catalog, classifier internals,
transport) are parameters of the embedded functions.
-/

namespace Chatbot

/-- Truthiness of a JavaScript string-or-undefined value: undefined and the
empty string are falsy, every other string is truthy. -/
def jsTruthy : Option String → Bool
  | none => false
  | some s => s != ""

/-- Entity map produced by the NLP layer (nlpService.js extractEntities):
product keywords, category keywords, an optional price and an optional
quantity. -/
structure NlpEntities where
  products : List String := []
  categories : List String := []
  price : Option ℚ := none
  quantity : Option Nat := none
deriving DecidableEq, Repr

/-- Sentiment record returned by nlpService.js analyzeSentiment:
a numeric score and a categorical label. -/
structure SentimentResult where
  score : ℚ := 0
  sentiment : String := "neutral"
deriving DecidableEq, Repr

/-- Classification result produced by the NLP layer (the shape returned by
detectIntentWithNatural in nlpService.js). -/
structure NlpResult where
  intent : String
  confidence : ℚ
  entities : NlpEntities := {}
  sentiment : SentimentResult := {}
  originalMessage : String := ""
  source : String := ""
deriving DecidableEq, Repr

/-- Conversation context object.  The JavaScript context is an open object;
the flow handlers in conversationService.js only ever read or write the
keys below, so the embedding gives each of them an optional field, with
none standing for an absent key. -/
structure ConvContext where
  currentFlow : Option String := none
  selectedCategory : Option String := none
  selectedProduct : Option String := none
  searchQuery : Option String := none
  productName : Option String := none
deriving DecidableEq, Repr

/-- Shallow embedding of ConversationService.determineFlow
(conversationService.js lines 70-109).  The JavaScript switch with its
fall-through pairs is rendered as an if-chain over the intent string; the
medium-confidence branch tests the JavaScript truthiness of
context.currentFlow and returns that value. -/
def determineFlow (nlpResult : NlpResult) (context : ConvContext) : String :=
  if (0.7 : ℚ) < nlpResult.confidence then
    if nlpResult.intent = "greeting" ∨ nlpResult.intent = "get_started" then "welcome"
    else if nlpResult.intent = "browse_catalog" ∨ nlpResult.intent = "show_products" then "browse_catalog"
    else if nlpResult.intent = "search_product" ∨ nlpResult.intent = "find_product" then "product_search"
    else if nlpResult.intent = "product_details" ∨ nlpResult.intent = "more_info" then "product_details"
    else if nlpResult.intent = "get_recommendations" ∨ nlpResult.intent = "suggest_products" then "recommendations"
    else if nlpResult.intent = "faq" ∨ nlpResult.intent = "help" then "faq"
    else if nlpResult.intent = "contact_support" ∨ nlpResult.intent = "human_agent" then "support"
    else "fallback"
  else if (0.4 : ℚ) < nlpResult.confidence ∧ jsTruthy context.currentFlow then
    context.currentFlow.getD ""
  else
    "fallback"

/-- The fixed intent-to-flow lookup table exactly as the specification
words it (spec section 4.4, rule 1), defined from the words of the spec so
that determineFlow can be compared against it: greeting and get_started go
to welcome, browse_catalog and show_products to browse_catalog,
search_product and find_product to product_search, product_details and
more_info to product_details, get_recommendations and suggest_products to
recommendations, faq and help to faq, contact_support and human_agent to
support, and every other intent to fallback. -/
def specFlowTable (intent : String) : String :=
  if intent = "greeting" ∨ intent = "get_started" then "welcome"
  else if intent = "browse_catalog" ∨ intent = "show_products" then "browse_catalog"
  else if intent = "search_product" ∨ intent = "find_product" then "product_search"
  else if intent = "product_details" ∨ intent = "more_info" then "product_details"
  else if intent = "get_recommendations" ∨ intent = "suggest_products" then "recommendations"
  else if intent = "faq" ∨ intent = "help" then "faq"
  else if intent = "contact_support" ∨ intent = "human_agent" then "support"
  else "fallback"

/-- Tag for a bound flow-handler method of ConversationService. -/
inductive HandlerTag where
  | welcomeH | browseH | searchH | detailsH | recommendationsH | faqH | supportH | fallbackH
deriving DecidableEq, Repr

/-- The flow dispatch table built in the ConversationService constructor
(conversationService.js lines 14-23): flow name to handler. -/
def flows : List (String × HandlerTag) :=
  [("welcome", .welcomeH),
   ("browse_catalog", .browseH),
   ("product_search", .searchH),
   ("product_details", .detailsH),
   ("recommendations", .recommendationsH),
   ("faq", .faqH),
   ("support", .supportH),
   ("fallback", .fallbackH)]

/-- The eight registered flow names: the keys of the dispatch table. -/
def registeredFlowNames : List String := flows.map Prod.fst

/-- Every value any of the eight flow handlers assigns to
context.currentFlow, collected from conversationService.js: welcome (lines
134, 238, 359, 502), browse_catalog (155, 192, 276, 339), product_search
(208), product_details (174, 231, 257, 321, 377, 399), faq (425, 452) and
support (477).  No handler ever writes recommendations or fallback. -/
def handlerWrittenFlows : List String :=
  ["welcome", "browse_catalog", "product_search", "product_details", "faq", "support"]

/-- Button of an interactive-buttons response. -/
structure ResponseButton where
  id : String
  title : String
deriving DecidableEq, Repr

/-- Row of an interactive-list section. -/
structure ResponseRow where
  id : String
  title : String
  description : String
deriving DecidableEq, Repr

/-- Titled section of an interactive-list response. -/
structure ResponseSection where
  title : String
  rows : List ResponseRow
deriving DecidableEq, Repr

/-- Response descriptor returned by the flow handlers of
conversationService.js: a text, a type tag, optional buttons, list
sections or image, and the context object to store. -/
structure FlowResponse where
  text : String
  type : String
  buttons : List ResponseButton := []
  buttonText : Option String := none
  sections : List ResponseSection := []
  imageUrl : Option String := none
  context : ConvContext := {}
deriving DecidableEq, Repr

/-- Catalog product as the search handler consumes it.  The price is kept
as its rendered string because the handler only ever interpolates it into
text. -/
structure Product where
  productId : String
  name : String
  price : String
  description : String
deriving DecidableEq, Repr

/-- External catalog lookups used by the search flow handler:
catalogService.searchProducts with the limit 6 already applied, and the
result of catalogService.getRecommendations with limit 3. -/
structure SearchEnv where
  searchProducts : String → List Product
  getRecommendations : List Product

/-- Query extraction of the search handler (conversationService.js line
202): the first recognized product entity when one exists, otherwise the
raw message. -/
def searchQueryOf (entities : NlpEntities) (message : String) : String :=
  if entities.products.length > 0 then entities.products.headD "" else message

/-- Prompt returned by the search handler for a missing or too-short
query (conversationService.js lines 204-210). -/
def searchPromptResponse : FlowResponse :=
  { text := "Please tell me what product you\x27re looking for. For example: \"smartphone\", \"laptop\", \"headphones\"",
    type := "text",
    context := { currentFlow := some "product_search" } }

/-- Shallow embedding of ConversationService.handleSearchFlow
(conversationService.js lines 198-259).  The customer argument only feeds
the catalog calls and is absorbed into the environment; the context
argument is unused by the source handler. -/
def handleSearchFlow (env : SearchEnv) (nlpResult : NlpResult) (message : String) : FlowResponse :=
  let searchQuery := searchQueryOf nlpResult.entities message
  if searchQuery = "" ∨ searchQuery.length < 2 then
    searchPromptResponse
  else
    let products := env.searchProducts searchQuery
    if products.length = 0 then
      let suggestions := env.getRecommendations
      let responseText := "Sorry, I couldn\x27t find any products matching \"" ++ searchQuery ++ "\"."
      if suggestions.length > 0 then
        { text := responseText ++ "\n\nBut you might like these instead:",
          type := "interactive_buttons",
          buttons := suggestions.map fun p =>
            { id := "product_" ++ p.productId, title := p.name.take 20 },
          context := { currentFlow := some "product_details" } }
      else
        { text := responseText ++ "\n\nTry searching for something else or browse our categories.",
          type := "text",
          context := { currentFlow := some "welcome" } }
    else
      { text := "Found " ++ toString products.length ++ " products matching \"" ++ searchQuery ++ "\":",
        type := "interactive_list",
        buttonText := some "View Products",
        sections := [{ title := "Search Results for \"" ++ searchQuery ++ "\"",
                       rows := products.map fun p =>
                         { id := "product_" ++ p.productId,
                           title := p.name.take 24,
                           description := p.price ++ " - " ++ p.description.take 50 ++ "..." } }],
        context := { currentFlow := some "product_details", searchQuery := some searchQuery } }

/-- Customer record (models/Customer.js), reduced to the fields the
pipeline reads. -/
structure Customer where
  phoneNumber : String
  name : Option String := none
deriving DecidableEq, Repr

/-- Conversation document (models/Conversation.js), reduced to the fields
the embedded operations touch.  The id field stands for the Mongo id; an
unset endTime (none) marks the session open.  The schema declares plain,
non-unique indexes on customerId and sessionId. -/
structure Conversation where
  id : String
  customerId : String
  sessionId : String
  currentFlow : String := "welcome"
  currentStep : String := "start"
  context : ConvContext := {}
  endTime : Option Nat := none
deriving DecidableEq, Repr

/-- Shallow embedding of ConversationService.updateConversationContext
(conversationService.js lines 620-627): findByIdAndUpdate with a Mongo
set of the whole context field, so the stored context becomes exactly
newContext (the lastActivity timestamp bookkeeping is not modelled). -/
def updateConversationContext (conversation : Conversation) (newContext : ConvContext) : Conversation :=
  { conversation with context := newContext }

/-- Session id template of getCurrentConversation (conversationService.js
line 578), where day is the ISO date part of the current time. -/
def sessionIdFor (customerId day : String) : String :=
  "session_" ++ customerId ++ "_" ++ day

/-- The findOne filter of getCurrentConversation (conversationService.js
lines 580-584): same customer, same session id, endTime not set. -/
def openSessionMatch (customerId sessionId : String) (c : Conversation) : Bool :=
  c.customerId == customerId && c.sessionId == sessionId && c.endTime == none

/-- Shallow embedding of ConversationService.getCurrentConversation
(conversationService.js lines 577-598) against an explicit document
store: findOne on (customerId, sessionId, endTime unset); when nothing
matches, a new open conversation with the given fresh id is saved.  The
returned pair is the record and the store after the call. -/
def getCurrentConversation (freshId customerId day : String) (store : List Conversation) :
    Conversation × List Conversation :=
  let sessionId := sessionIdFor customerId day
  match store.find? (openSessionMatch customerId sessionId) with
  | some conversation => (conversation, store)
  | none =>
      let conversation : Conversation :=
        { id := freshId, customerId := customerId, sessionId := sessionId,
          currentFlow := "welcome", currentStep := "start", context := {} }
      (conversation, store ++ [conversation])

/-- All open sessions of a customer for a given day in the store. -/
def openSessions (customerId day : String) (store : List Conversation) : List Conversation :=
  store.filter (openSessionMatch customerId (sessionIdFor customerId day))

/-- Two workers racing through getCurrentConversation at first contact:
both run the findOne step before either runs the save step, the
interleaving the source has no protection against (plain find-then-insert,
no upsert and no unique index). -/
def raceFirstContact (customerId day idA idB : String) (store : List Conversation) :
    List Conversation :=
  let sessionId := sessionIdFor customerId day
  let foundA := store.find? (openSessionMatch customerId sessionId)
  let foundB := store.find? (openSessionMatch customerId sessionId)
  let store1 :=
    match foundA with
    | some _ => store
    | none => store ++ [{ id := idA, customerId := customerId, sessionId := sessionId : Conversation }]
  match foundB with
  | some _ => store1
  | none => store1 ++ [{ id := idB, customerId := customerId, sessionId := sessionId : Conversation }]

/-- Job options of the message queue.  attempts, backoffType and
backoffDelay mirror the defaults of QueueService.addToQueue
(queueService.js lines 79-85); removeOnComplete and removeOnFail mirror
the defaultJobOptions of the message queue (queueService.js lines 20-23),
where a number means: keep at most that many finished jobs. -/
structure JobOptions where
  attempts : Nat := 1
  backoffType : String := "fixed"
  backoffDelay : Nat := 0
  removeOnComplete : Nat := 0
  removeOnFail : Nat := 0
deriving DecidableEq, Repr

/-- The effective options of a job enqueued by addToQueue with the default
(empty) per-call options: the addToQueue defaults (attempts 3, exponential
backoff with base delay 2000) merged over the message queue defaults
(removeOnComplete 100, removeOnFail 50). -/
def defaultJobOptions : JobOptions :=
  { attempts := 3,
    backoffType := "exponential",
    backoffDelay := 2000,
    removeOnComplete := 100,
    removeOnFail := 50 }

/-- Terminal and intermediate job states of the queue. -/
inductive JobState where
  | waiting | active | completed | failed
deriving DecidableEq, Repr

/-- Modelled from the spec: the retry engine of the external queue library
(the Bull dependency, not part of the repository sources).  Spec section
4.2: exponential backoff starting at the fixed base delay and doubling
each attempt, so the delay scheduled after the k-th failed attempt is
backoffDelay times 2 to the (k-1). -/
def backoffDelayAfter (opts : JobOptions) (failedAttempts : Nat) : Nat :=
  if opts.backoffType = "exponential" then
    opts.backoffDelay * 2 ^ (failedAttempts - 1)
  else
    opts.backoffDelay

/-- Outcome of running one job to its terminal state: how many attempts
were made, the final state, the backoff delays that separated consecutive
attempts, and whether the terminal job is retained for inspection. -/
structure JobRun where
  attemptsMade : Nat
  state : JobState
  delays : List Nat
  retained : Bool
deriving DecidableEq, Repr

/-- Modelled from the spec: the queue retry loop for a handler that fails
on every attempt.  Each recursive step makes one attempt; while attempts
remain the job is re-scheduled after the exponential backoff delay, and
once the configured attempts are exhausted the job becomes failed and is
retained, since a numeric removeOnFail keeps the most recent failed jobs
rather than dropping them. -/
def runAlwaysFailingFrom (opts : JobOptions) (made : Nat) (delaysSoFar : List Nat) :
    Nat → JobRun
  | 0 =>
      { attemptsMade := made, state := .failed, delays := delaysSoFar,
        retained := 0 < opts.removeOnFail }
  | fuel + 1 =>
      let made := made + 1
      if made < opts.attempts then
        runAlwaysFailingFrom opts made (delaysSoFar ++ [backoffDelayAfter opts made]) fuel
      else
        { attemptsMade := made, state := .failed, delays := delaysSoFar,
          retained := 0 < opts.removeOnFail }

/-- Running an always-failing job from its enqueue to its terminal state. -/
def runAlwaysFailingJob (opts : JobOptions) : JobRun :=
  runAlwaysFailingFrom opts 0 [] opts.attempts

/-- Replacement of the first occurrence of a pattern by the empty string,
the behaviour of the JavaScript String.replace with a string pattern,
used on the From field to strip the channel prefix. -/
def replaceFirst (s pat : String) : String :=
  match s.splitOn pat with
  | [] => s
  | [x] => x
  | x :: rest => x ++ String.intercalate pat rest

/-- Inbound Twilio webhook request as handleWebhook destructures it:
environment facts (production mode, strict-validation flag, whether the
Twilio signature verifies) and the body fields Body, From, MediaUrl0,
MediaContentType0. -/
structure TwilioRequest where
  production : Bool
  strictValidation : Bool := false
  signatureValid : Bool
  body : Option String := none
  fromNumber : String
  mediaUrl0 : Option String := none
  mediaContentType0 : Option String := none
deriving DecidableEq, Repr

/-- Work the webhook handler schedules with setImmediate to run after the
HTTP response: generate an auto response for the message and send it back
to the From number. -/
inductive DeferredTask where
  | autoRespond (toNumber : String) (message : String) : DeferredTask
deriving DecidableEq, Repr

/-- Observable outcome of one handleWebhook call: the HTTP status and
body returned to Twilio, the jobs placed on the message queue during the
call (jobType and payload key), the in-process tasks left scheduled for
after the response, the outbound sends performed before responding, and
the normalized customer id. -/
structure WebhookOutcome where
  status : Nat
  respBody : String
  enqueuedJobs : List (String × String) := []
  deferredTasks : List DeferredTask := []
  syncSends : List String := []
  customerId : Option String := none
deriving DecidableEq, Repr

/-- Shallow embedding of WebhookController.handleWebhook
(webhookController.js lines 43-112).  In production an invalid signature
is rejected with 403; the development strict-validation branch only logs
and changes nothing observable.  A request with neither a truthy Body nor
media is acknowledged and skipped.  Otherwise the handler normalizes the
payload, schedules the auto-response work with setImmediate and returns
200 OK at once: nothing is ever added to the message queue, and no send
happens before the response. -/
def handleWebhook (req : TwilioRequest) : WebhookOutcome :=
  if req.production && !req.signatureValid then
    { status := 403, respBody := "Forbidden" }
  else if !jsTruthy req.body && !jsTruthy req.mediaUrl0 then
    { status := 200, respBody := "OK" }
  else
    let customerId := replaceFirst req.fromNumber "whatsapp:"
    let message0 := req.body.getD ""
    let messageType :=
      if jsTruthy req.mediaUrl0 then
        match req.mediaContentType0 with
        | some ct => if ct.startsWith "image/" then "image" else "document"
        | none => "document"
      else "text"
    let message :=
      if jsTruthy req.mediaUrl0 && !jsTruthy (some message0) then
        "Received " ++ messageType
      else message0
    { status := 200, respBody := "OK",
      enqueuedJobs := [],
      deferredTasks := [.autoRespond req.fromNumber message],
      syncSends := [],
      customerId := some customerId }

/-- Fallback response that ConversationService.processMessage sends from
its catch block (conversationService.js lines 60-63). -/
def fallbackResponse : FlowResponse :=
  { text := "I\x27m sorry, I encountered an error. Please try again or contact our support team.",
    type := "text" }

/-- External collaborators of one processMessage run, each step as the
Except value it produces: customer get-or-create, session get-or-create,
NLP classification, incoming log write, the dispatched flow handler, the
context update, the outgoing log write and the outbound send (sendResponse
taken as a whole, inner formatting fallback included). -/
structure PipelineEnv where
  getOrCreateCustomer : Except String Customer
  getCurrentConversation : Except String Conversation
  detectIntent : Except String NlpResult
  logIncoming : Except String Unit
  runFlow : String → Customer → NlpResult → ConvContext → String → Except String FlowResponse
  updateConversationContext : ConvContext → Except String Unit
  logOutgoing : FlowResponse → Except String Unit
  sendResponse : FlowResponse → Except String Unit

/-- The try block of ConversationService.processMessage
(conversationService.js lines 28-57): the pipeline from get-or-create to
the outbound send, stopping at the first failing step. -/
def processMessagePipeline (env : PipelineEnv) (message : String) : Except String FlowResponse := do
  let customer ← env.getOrCreateCustomer
  let conversation ← env.getCurrentConversation
  let nlpResult ← env.detectIntent
  let _ ← env.logIncoming
  let flow := determineFlow nlpResult conversation.context
  let response ← env.runFlow flow customer nlpResult conversation.context message
  let _ ← env.updateConversationContext (response.context)
  let _ ← env.logOutgoing response
  let _ ← env.sendResponse response
  pure response

/-- Shallow embedding of ConversationService.processMessage
(conversationService.js lines 27-67): the pipeline wrapped in the catch
block, which sends the generic fallback response and returns it normally;
only a failure of that very send escapes, because the catch block awaits
it. -/
def processMessage (env : PipelineEnv) (message : String) : Except String FlowResponse :=
  match processMessagePipeline env message with
  | .ok response => .ok response
  | .error _ =>
      match env.sendResponse fallbackResponse with
      | .ok _ => .ok fallbackResponse
      | .error e => .error e

/-- True when the substring occurs in the string: the JavaScript
String.includes used by extractEntities. -/
def includesSubstr (s sub : String) : Bool :=
  (s.splitOn sub).length != 1

/-- Product keyword list of nlpService.js extractEntities (lines 158-163). -/
def productKeywords : List String :=
  ["phone", "smartphone", "iphone", "android",
   "laptop", "computer", "pc", "macbook",
   "tablet", "ipad", "headphones", "earbuds",
   "watch", "smartwatch", "camera", "tv"]

/-- Category keyword list of nlpService.js extractEntities (lines 172-175). -/
def categoryKeywords : List String :=
  ["electronics", "clothing", "fashion", "books",
   "home", "garden", "sports", "health", "beauty"]

/-- Numeric value of a decimal digit character. -/
def digitVal (c : Char) : Nat := c.toNat - 48

/-- Decimal number denoted by a run of digit characters. -/
def digitsToNat (ds : List Char) : Nat :=
  ds.foldl (fun acc c => acc * 10 + digitVal c) 0

/-- Price extraction of extractEntities (nlpService.js lines 184-187): the
first match of an optional dollar sign, a digit run and an optional dot
with exactly two decimals, scanned left to right as the regular expression
engine does, parsed as a number. -/
def findPriceMatch : List Char → Option ℚ
  | [] => none
  | c :: rest =>
    if c.isDigit then
      let ds := (c :: rest).takeWhile Char.isDigit
      let rest1 := (c :: rest).dropWhile Char.isDigit
      let whole : ℚ := (digitsToNat ds : ℚ)
      match rest1 with
      | '.' :: d1 :: d2 :: _ =>
        if d1.isDigit && d2.isDigit then
          some (whole + ((digitVal d1 * 10 + digitVal d2 : Nat) : ℚ) / 100)
        else some whole
      | _ => some whole
    else findPriceMatch rest

/-- The unit words of the quantity pattern of extractEntities
(nlpService.js line 190); the optional plural s never changes the captured
digits, so the prefixes suffice. -/
def quantityUnitWords : List String := ["piece", "item", "qty", "quantity"]

/-- True when the character list starts with one of the given words. -/
def startsWithAny (cs : List Char) (keys : List String) : Bool :=
  keys.any fun k => k.data.isPrefixOf cs

/-- Quantity extraction of extractEntities (nlpService.js lines 190-193):
the first digit run followed by optional whitespace and a quantity unit
word, scanned left to right with retry at the next character as the
regular expression engine does; the case-insensitive flag is modelled by
matching on the lowercased text. -/
def findQuantityMatch : List Char → Option Nat
  | [] => none
  | c :: rest =>
    if c.isDigit then
      let ds := (c :: rest).takeWhile Char.isDigit
      let rest1 := (c :: rest).dropWhile Char.isDigit
      let rest2 := rest1.dropWhile Char.isWhitespace
      if startsWithAny rest2 quantityUnitWords then some (digitsToNat ds)
      else findQuantityMatch rest
    else findQuantityMatch rest

/-- Shallow embedding of NLPService.extractEntities (nlpService.js lines
149-196): keyword containment for products and categories in source list
order, the price pattern and the quantity pattern. -/
def extractEntities (message : String) : NlpEntities :=
  { products := productKeywords.filter fun keyword => includesSubstr message keyword,
    categories := categoryKeywords.filter fun category => includesSubstr message category,
    price := findPriceMatch message.data,
    quantity := findQuantityMatch message.toLower.data }

/-- One entry of LogisticRegressionClassifier.getClassifications: a label
with its posterior value. -/
structure NlpClassification where
  label : String
  value : ℚ
deriving DecidableEq, Repr

/-- Fixed trained state of the Natural.js toolkit as nlpService.js holds
it after construction: the trained classifier (classify and
getClassifications), the word tokenizer, the Porter stemmer and the afinn
polarity lexicon.  All are plain functions of their text input. -/
structure NaturalEnv where
  classify : String → String
  getClassifications : String → List NlpClassification
  tokenize : String → List String
  stem : String → String
  afinn : String → ℚ

/-- Score of SentimentAnalyzer.getSentiment: the sum of the polarity
values of the stemmed tokens divided by the token count. -/
def getSentimentScore (env : NaturalEnv) (stemmedTokens : List String) : ℚ :=
  (stemmedTokens.map env.afinn).sum / (stemmedTokens.length : ℚ)

/-- Shallow embedding of NLPService.analyzeSentiment (nlpService.js lines
199-209): tokenize, stem, score, then label positive above 0.1, negative
below -0.1, neutral otherwise. -/
def analyzeSentiment (env : NaturalEnv) (message : String) : SentimentResult :=
  let tokens := env.tokenize message
  let stemmedTokens := tokens.map env.stem
  let score := getSentimentScore env stemmedTokens
  let sentiment :=
    if (0.1 : ℚ) < score then "positive"
    else if score < (-0.1 : ℚ) then "negative"
    else "neutral"
  { score := score, sentiment := sentiment }

/-- Shallow embedding of NLPService.detectIntentWithNatural
(nlpService.js lines 124-146): lowercase the message, classify it, take
the posterior of the winning label as confidence (the JavaScript
value-or-0.5 default is falsy on 0), extract entities and sentiment from
the lowercased text, and assemble the result. -/
def detectIntentWithNatural (env : NaturalEnv) (message : String) : NlpResult :=
  let lowerMessage := message.toLower
  let intent := env.classify lowerMessage
  let classifications := env.getClassifications lowerMessage
  let confidence :=
    match classifications.find? (fun c => c.label == intent) with
    | some c => if c.value = 0 then 0.5 else c.value
    | none => 0.5
  let entities := extractEntities lowerMessage
  let sentiment := analyzeSentiment env lowerMessage
  { intent := intent, confidence := confidence, entities := entities,
    sentiment := sentiment, originalMessage := message, source := "natural" }

/-- C1: for every classification result with confidence strictly greater
than 0.7, the flow selected by determineFlow depends only on the intent,
never on the prior context: the intent is mapped through the fixed lookup
table of the specification (specFlowTable), and every intent outside that
table maps to fallback. -/
theorem determineFlow_highConfidence_table (r : NlpResult)
    (context context2 : ConvContext) (h : (0.7 : ℚ) < r.confidence) :
    determineFlow r context = specFlowTable r.intent ∧
    determineFlow r context = determineFlow r context2 := by
  unfold determineFlow specFlowTable
  rw [if_pos h, if_pos h]
  exact ⟨rfl, rfl⟩

/-- Witness for C1: at confidence 0.9 and intent help, the flow is the
table entry faq, for two different prior contexts. -/
theorem determineFlow_highConfidence_table_witness :
    (0.7 : ℚ) < 0.9 ∧
    (determineFlow { intent := "help", confidence := 0.9 }
        { currentFlow := some "support" } = specFlowTable "help" ∧
      determineFlow { intent := "help", confidence := 0.9 }
        { currentFlow := some "support" } =
      determineFlow { intent := "help", confidence := 0.9 } {}) :=
  ⟨by norm_num,
    determineFlow_highConfidence_table
      { intent := "help", confidence := 0.9 }
      { currentFlow := some "support" } {} (by norm_num)⟩

/-- C2: with confidence in the interval (0.4, 0.7] and a set (truthy)
currentFlow in the prior context, determineFlow returns exactly that
currentFlow; with confidence at most 0.4, or confidence at most 0.7 and no
currentFlow set, it returns fallback. -/
theorem determineFlow_medium_continuation (r : NlpResult)
    (context : ConvContext) (f : String) :
    (r.confidence ≤ 0.7 → (0.4 : ℚ) < r.confidence →
      context.currentFlow = some f → f ≠ "" → determineFlow r context = f) ∧
    (r.confidence ≤ 0.4 → determineFlow r context = "fallback") ∧
    (r.confidence ≤ 0.7 → context.currentFlow = none →
      determineFlow r context = "fallback") := by
  refine ⟨?_, ?_, ?_⟩
  · intro h7 h4 hcf hne
    unfold determineFlow
    rw [if_neg (not_lt.mpr h7), if_pos]
    · rw [hcf]; rfl
    · refine ⟨h4, ?_⟩
      rw [hcf]
      simpa [jsTruthy] using hne
  · intro h4
    unfold determineFlow
    rw [if_neg (by rw [not_lt]; linarith), if_neg]
    intro hc
    exact absurd hc.1 (not_lt.mpr h4)
  · intro h7 hnone
    unfold determineFlow
    rw [if_neg (not_lt.mpr h7), if_neg]
    intro hc
    rw [hnone] at hc
    simp [jsTruthy] at hc

/-- Witness for C2: at confidence 0.5 with currentFlow faq the selected
flow is faq (continuation); at confidence 0.3 the selected flow is
fallback; at confidence 0.5 with no currentFlow the selected flow is
fallback. -/
theorem determineFlow_medium_continuation_witness :
    determineFlow { intent := "anything", confidence := 0.5 }
      { currentFlow := some "faq" } = "faq" ∧
    determineFlow { intent := "anything", confidence := 0.3 }
      { currentFlow := some "faq" } = "fallback" ∧
    determineFlow { intent := "anything", confidence := 0.5 } {} =
      "fallback" :=
  ⟨(determineFlow_medium_continuation
      { intent := "anything", confidence := 0.5 }
      { currentFlow := some "faq" } "faq").1
      (by norm_num) (by norm_num) rfl (by decide),
    (determineFlow_medium_continuation
      { intent := "anything", confidence := 0.3 }
      { currentFlow := some "faq" } "faq").2.1 (by norm_num),
    (determineFlow_medium_continuation
      { intent := "anything", confidence := 0.5 } {} "faq").2.2
      (by norm_num) rfl⟩

/-- C3: a job enqueued with the default options whose handler fails on
every attempt is retried with exponential backoff from the base delay of
2000 ms doubling each attempt, with strictly increasing delays between
consecutive attempts, reaches the failed state after exactly 3 attempts,
and is retained for inspection with no further attempt. -/
theorem addToQueue_default_retry_law :
    (runAlwaysFailingJob defaultJobOptions).state = JobState.failed ∧
    (runAlwaysFailingJob defaultJobOptions).attemptsMade = defaultJobOptions.attempts ∧
    (runAlwaysFailingJob defaultJobOptions).attemptsMade = 3 ∧
    (runAlwaysFailingJob defaultJobOptions).delays = [2000, 4000] ∧
    List.Chain' (· < ·) (runAlwaysFailingJob defaultJobOptions).delays ∧
    (runAlwaysFailingJob defaultJobOptions).retained = true := by
  refine ⟨rfl, rfl, rfl, rfl, ?_, rfl⟩
  rw [show (runAlwaysFailingJob defaultJobOptions).delays = [2000, 4000] from rfl]
  exact List.chain'_pair.mpr (by norm_num)

/-- Environment for one processMessage run in which the classification
step raises and every send succeeds: the concrete scenario of an
unexpected mid-pipeline exception. -/
def envC4 : PipelineEnv :=
  { getOrCreateCustomer := .ok { phoneNumber := "254700000001" },
    getCurrentConversation := .ok
      { id := "c1", customerId := "254700000001",
        sessionId := "session_254700000001_2026-10-11" },
    detectIntent := .error "NLP service unavailable",
    logIncoming := .ok (),
    runFlow := fun _ _ _ _ _ => .ok { text := "hi", type := "text" },
    updateConversationContext := fun _ => .ok (),
    logOutgoing := fun _ => .ok (),
    sendResponse := fun _ => .ok () }

/-- Counterexample to C4: when the classification step raises, the
pipeline fails with that error, yet processMessage returns the generic
apology response normally instead of re-raising the error past the job
boundary. -/
theorem processMessage_swallows_error :
    processMessagePipeline envC4 "hello" = Except.error "NLP service unavailable" ∧
    processMessage envC4 "hello" = Except.ok fallbackResponse := by
  exact ⟨rfl, rfl⟩

/-- C4 amended: if any step of processMessage raises, the generic apology
is sent and returned as the normal (non-error) result, swallowing the
original error so the queue retry bookkeeping does not apply; the only
error that can escape is a failure of the apology send itself. -/
theorem processMessage_apology_then_swallow (env : PipelineEnv)
    (message e : String)
    (h : processMessagePipeline env message = Except.error e) :
    (env.sendResponse fallbackResponse = Except.ok () →
      processMessage env message = Except.ok fallbackResponse) ∧
    (∀ e2, env.sendResponse fallbackResponse = Except.error e2 →
      processMessage env message = Except.error e2) := by
  unfold processMessage
  rw [h]
  constructor
  · intro hs; rw [hs]
  · intro e2 hs; rw [hs]

/-- Witness for the amended C4 at the concrete failing environment. -/
theorem processMessage_apology_then_swallow_witness :
    processMessage envC4 "hello" = Except.ok fallbackResponse :=
  (processMessage_apology_then_swallow envC4 "hello" "NLP service unavailable" rfl).1 rfl

/-- Counterexample to C5: a prior context holding selectedProduct p1 and a
handler patch carrying only currentFlow; after the update the stored
context no longer holds selectedProduct, so a key present in the prior
context but absent from the patch is not preserved. -/
theorem updateConversationContext_drops_prior_keys :
    ({ currentFlow := some "product_details",
       selectedProduct := some "p1" : ConvContext }).selectedProduct = some "p1" ∧
    ({ currentFlow := some "welcome" : ConvContext }).selectedProduct = none ∧
    (updateConversationContext
        { id := "c1", customerId := "254700000001",
          sessionId := "session_254700000001_2026-10-11",
          context := { currentFlow := some "product_details",
                       selectedProduct := some "p1" } }
        { currentFlow := some "welcome" }).context.selectedProduct = none := by
  exact ⟨rfl, rfl, rfl⟩

/-- C5 amended: the context update replaces the stored context wholesale
with the handler patch (a Mongo set of the whole context field): keys
present in the patch take the patch values, and every key absent from the
patch is dropped, whatever the prior context held. -/
theorem updateConversationContext_replaces (conversation : Conversation)
    (patch : ConvContext) :
    (updateConversationContext conversation patch).context = patch := rfl

/-- A plain development-mode text message request, signature irrelevant. -/
def reqC6 : TwilioRequest :=
  { production := false, signatureValid := true,
    body := some "hello", fromNumber := "whatsapp:+15551234567" }

/-- Counterexample to C6: for an inbound request carrying a message body,
the handler acknowledges with 200 and leaves an in-process deferred
auto-response task, but the list of jobs placed on the message queue is
empty: no process_message job is enqueued. -/
theorem handleWebhook_enqueues_nothing :
    (handleWebhook reqC6).enqueuedJobs = [] ∧
    (handleWebhook reqC6).status = 200 ∧
    (handleWebhook reqC6).deferredTasks =
      [DeferredTask.autoRespond "whatsapp:+15551234567" "hello"] := by
  exact ⟨rfl, rfl, rfl⟩

/-- C6 amended: for every inbound request containing a truthy message
body or media that is not rejected by the production signature check, the
handler returns success to the caller while the processing work is still
pending: it performs no outbound send before responding, enqueues nothing
on the message queue, and instead leaves exactly one in-process deferred
auto-response task (the setImmediate callback), which itself generates
and sends the reply. -/
theorem handleWebhook_ack_before_processing (req : TwilioRequest)
    (hsig : (req.production && !req.signatureValid) = false)
    (hmsg : (jsTruthy req.body || jsTruthy req.mediaUrl0) = true) :
    (handleWebhook req).status = 200 ∧
    (handleWebhook req).enqueuedJobs = [] ∧
    (handleWebhook req).syncSends = [] ∧
    ∃ m, (handleWebhook req).deferredTasks = [DeferredTask.autoRespond req.fromNumber m] := by
  have hskip : (!jsTruthy req.body && !jsTruthy req.mediaUrl0) = false := by
    revert hmsg
    cases jsTruthy req.body <;> cases jsTruthy req.mediaUrl0 <;> simp
  unfold handleWebhook
  rw [hsig, hskip]
  exact ⟨rfl, rfl, rfl, _, rfl⟩

/-- Witness for the amended C6 at the concrete text-message request. -/
theorem handleWebhook_ack_before_processing_witness :
    (handleWebhook reqC6).status = 200 ∧
    (handleWebhook reqC6).enqueuedJobs = [] ∧
    (handleWebhook reqC6).syncSends = [] ∧
    (handleWebhook reqC6).deferredTasks =
      [DeferredTask.autoRespond reqC6.fromNumber "hello"] :=
  ⟨(handleWebhook_ack_before_processing reqC6 (by decide) (by decide)).1,
   (handleWebhook_ack_before_processing reqC6 (by decide) (by decide)).2.1,
   (handleWebhook_ack_before_processing reqC6 (by decide) (by decide)).2.2.1,
   rfl⟩

/-- Counterexample to C7: two invocations racing at first contact (both
running the findOne step before either save) each insert a record, so the
store ends with two open sessions for the same customer and day instead
of one. -/
theorem getCurrentConversation_race_duplicates :
    (openSessions "254700000001" "2026-10-11"
        (raceFirstContact "254700000001" "2026-10-11" "idA" "idB" [])).length = 2 ∧
    ¬ (openSessions "254700000001" "2026-10-11"
        (raceFirstContact "254700000001" "2026-10-11" "idA" "idB" [])).length ≤ 1 := by
  exact ⟨rfl, by decide⟩

/-- C7 amended: sequential get-or-create is idempotent for one customer
and day: a second invocation returns exactly the record of the first and
leaves the store unchanged.  The guarantee does not extend to racing
invocations, whose find-then-insert steps can interleave and duplicate
the session (no upsert and no unique index protect the insert). -/
theorem getCurrentConversation_sequential_idempotent
    (store : List Conversation) (customerId day idA idB : String) :
    getCurrentConversation idB customerId day
        (getCurrentConversation idA customerId day store).2 =
      getCurrentConversation idA customerId day store := by
  unfold getCurrentConversation
  cases hfind : store.find? (openSessionMatch customerId (sessionIdFor customerId day)) with
  | some c => simp [hfind]
  | none =>
    simp only [hfind]
    rw [List.find?_append, hfind]
    simp [List.find?, openSessionMatch]

/-- A string of positive length is not the empty string. -/
theorem str_ne_empty_of_len_pos (s : String) (h : 0 < s.length) : s ≠ "" := by
  intro hc
  rw [hc] at h
  exact absurd h (by decide)

/-- C8: the search handler takes its query from the first recognized
product entity, else from the raw text; a query shorter than 2 characters
yields the fixed prompt without consulting the catalog (the result is the
same for every catalog environment); a query whose search returns zero
products yields a not-found text with degraded recommendation buttons
when suggestions exist, else a redirect to welcome — and in both empty
cases the response text is nonempty. -/
theorem handleSearchFlow_query_and_empty_results :
    (∀ ent msg p rest, NlpEntities.products ent = p :: rest → searchQueryOf ent msg = p) ∧
    (∀ ent msg, NlpEntities.products ent = [] → searchQueryOf ent msg = msg) ∧
    (∀ env env2 r msg, (searchQueryOf (NlpResult.entities r) msg).length < 2 →
        handleSearchFlow env r msg = searchPromptResponse ∧
        handleSearchFlow env r msg = handleSearchFlow env2 r msg) ∧
    (∀ env r msg, 2 ≤ (searchQueryOf (NlpResult.entities r) msg).length →
        env.searchProducts (searchQueryOf (NlpResult.entities r) msg) = [] →
        ((env.getRecommendations ≠ [] →
            (handleSearchFlow env r msg).type = "interactive_buttons" ∧
            (handleSearchFlow env r msg).buttons ≠ [] ∧
            (handleSearchFlow env r msg).text ≠ "") ∧
         (env.getRecommendations = [] →
            (handleSearchFlow env r msg).type = "text" ∧
            (handleSearchFlow env r msg).context.currentFlow = some "welcome" ∧
            (handleSearchFlow env r msg).text ≠ ""))) := by
  have promptOf : ∀ (env : SearchEnv) (r : NlpResult) (msg : String),
      (searchQueryOf (NlpResult.entities r) msg).length < 2 →
      handleSearchFlow env r msg = searchPromptResponse := by
    intro env r msg h
    have hcond : searchQueryOf (NlpResult.entities r) msg = "" ∨
        (searchQueryOf (NlpResult.entities r) msg).length < 2 := Or.inr h
    simp only [handleSearchFlow]
    rw [if_pos hcond]
  refine ⟨?_, ?_, ?_, ?_⟩
  · intro ent msg p rest h
    unfold searchQueryOf
    rw [h]
    simp
  · intro ent msg h
    unfold searchQueryOf
    rw [h]
    simp
  · intro env env2 r msg h
    exact ⟨promptOf env r msg h, (promptOf env r msg h).trans (promptOf env2 r msg h).symm⟩
  · intro env r msg hlen hsearch
    have hne : ¬(searchQueryOf (NlpResult.entities r) msg = "" ∨
        (searchQueryOf (NlpResult.entities r) msg).length < 2) := by
      rintro (hq | hq)
      · rw [hq] at hlen
        exact absurd hlen (by decide)
      · omega
    have h0 : (env.searchProducts (searchQueryOf (NlpResult.entities r) msg)).length = 0 := by
      rw [hsearch]
      rfl
    constructor
    · intro hrec
      have hs : env.getRecommendations.length > 0 := List.length_pos_iff_ne_nil.mpr hrec
      simp only [handleSearchFlow]
      rw [if_neg hne, if_pos h0, if_pos hs]
      refine ⟨rfl, ?_, ?_⟩
      · simp [List.map_eq_nil_iff, hrec]
      · apply str_ne_empty_of_len_pos
        rw [String.length_append, String.length_append, String.length_append]
        have hpos : 0 < ("Sorry, I couldn\x27t find any products matching \"" : String).length := by
          decide
        omega
    · intro hrec
      have hs : ¬ env.getRecommendations.length > 0 := by
        rw [hrec]
        decide
      simp only [handleSearchFlow]
      rw [if_neg hne, if_pos h0, if_neg hs]
      refine ⟨rfl, rfl, ?_⟩
      apply str_ne_empty_of_len_pos
      rw [String.length_append, String.length_append, String.length_append]
      have hpos : 0 < ("Sorry, I couldn\x27t find any products matching \"" : String).length := by
        decide
      omega

/-- Catalog environment in which every search misses and three
recommendations exist. -/
def envC8 : SearchEnv :=
  { searchProducts := fun _ => [],
    getRecommendations :=
      [{ productId := "p1", name := "Phone One", price := "100",
         description := "A phone" },
       { productId := "p2", name := "Laptop Two", price := "900",
         description := "A laptop" },
       { productId := "p3", name := "Watch Three", price := "50",
         description := "A watch" }] }

/-- Catalog environment in which every search misses and no
recommendations exist. -/
def envC8empty : SearchEnv :=
  { searchProducts := fun _ => [], getRecommendations := [] }

/-- Classification result whose raw text is the unmatched query of the
specification scenario. -/
def nlpC8 : NlpResult := { intent := "search_product", confidence := 0.9 }

/-- Witness for C8: the short raw query a yields the fixed prompt in two
different catalog environments, and the query xyzzynotreal with zero
matches yields nonempty degraded responses of both shapes. -/
theorem handleSearchFlow_query_and_empty_results_witness :
    handleSearchFlow envC8 nlpC8 "a" = searchPromptResponse ∧
    handleSearchFlow envC8 nlpC8 "a" = handleSearchFlow envC8empty nlpC8 "a" ∧
    (handleSearchFlow envC8 nlpC8 "xyzzynotreal").type = "interactive_buttons" ∧
    (handleSearchFlow envC8 nlpC8 "xyzzynotreal").buttons ≠ [] ∧
    (handleSearchFlow envC8 nlpC8 "xyzzynotreal").text ≠ "" ∧
    (handleSearchFlow envC8empty nlpC8 "xyzzynotreal").type = "text" ∧
    (handleSearchFlow envC8empty nlpC8 "xyzzynotreal").context.currentFlow = some "welcome" ∧
    (handleSearchFlow envC8empty nlpC8 "xyzzynotreal").text ≠ "" := by
  have base := handleSearchFlow_query_and_empty_results
  have short := base.2.2.1 envC8 envC8empty nlpC8 "a" (by decide)
  have full := (base.2.2.2 envC8 nlpC8 "xyzzynotreal" (by decide) rfl).1 (by decide)
  have degraded := (base.2.2.2 envC8empty nlpC8 "xyzzynotreal" (by decide) rfl).2 rfl
  exact ⟨short.1, short.2, full.1, full.2.1, full.2.2, degraded.1, degraded.2.1, degraded.2.2⟩

/-- Fixed Natural.js state with a one-token tokenizer, identity stemmer
and constant polarity one, for concrete evaluation. -/
def envC9 : NaturalEnv :=
  { classify := fun _ => "greeting",
    getClassifications := fun _ => [],
    tokenize := fun s => [s],
    stem := id,
    afinn := fun _ => 1 }

/-- C9: the offline fallback classifier is deterministic — identical
input text yields an identical result record (intent, confidence,
entities, sentiment) — and the sentiment label follows the thresholds:
positive above 0.1, negative below -0.1, neutral otherwise; the sentiment
of the result is exactly the sentiment analysis of the lowercased text. -/
theorem detectIntentWithNatural_deterministic (env : NaturalEnv) (m1 m2 : String) :
    (m1 = m2 → detectIntentWithNatural env m1 = detectIntentWithNatural env m2) ∧
    ((0.1 : ℚ) < (analyzeSentiment env m1).score →
      (analyzeSentiment env m1).sentiment = "positive") ∧
    ((analyzeSentiment env m1).score < (-0.1 : ℚ) →
      (analyzeSentiment env m1).sentiment = "negative") ∧
    ((analyzeSentiment env m1).score ≤ (0.1 : ℚ) →
      (-0.1 : ℚ) ≤ (analyzeSentiment env m1).score →
      (analyzeSentiment env m1).sentiment = "neutral") ∧
    (detectIntentWithNatural env m1).sentiment = analyzeSentiment env m1.toLower := by
  refine ⟨fun h => by rw [h], ?_, ?_, ?_, rfl⟩
  · intro h
    show (if (0.1 : ℚ) < (analyzeSentiment env m1).score then "positive"
      else if (analyzeSentiment env m1).score < (-0.1 : ℚ) then "negative"
      else "neutral") = "positive"
    rw [if_pos h]
  · intro h
    show (if (0.1 : ℚ) < (analyzeSentiment env m1).score then "positive"
      else if (analyzeSentiment env m1).score < (-0.1 : ℚ) then "negative"
      else "neutral") = "negative"
    rw [if_neg (by linarith), if_pos h]
  · intro h1 h2
    show (if (0.1 : ℚ) < (analyzeSentiment env m1).score then "positive"
      else if (analyzeSentiment env m1).score < (-0.1 : ℚ) then "negative"
      else "neutral") = "neutral"
    rw [if_neg (not_lt.mpr h1), if_neg (not_lt.mpr h2)]

/-- Witness for C9: two runs on the same text agree, and a concrete
positive-score text is labelled positive. -/
theorem detectIntentWithNatural_deterministic_witness :
    detectIntentWithNatural envC9 "hi" = detectIntentWithNatural envC9 "hi" ∧
    (analyzeSentiment envC9 "great").sentiment = "positive" :=
  ⟨(detectIntentWithNatural_deterministic envC9 "hi" "hi").1 rfl,
   (detectIntentWithNatural_deterministic envC9 "great" "great").2.1 (by
      norm_num [analyzeSentiment, getSentimentScore, envC9, List.sum_cons, List.sum_nil])⟩

/-- C10: flow dispatch is total — whenever the prior context's
currentFlow, if set, is one of the values the flow handlers write,
determineFlow lands in the eight registered flow names and the dispatch
table lookup is defined; and the (embedded) search handler indeed only
writes currentFlow values from that set. -/
theorem determineFlow_total_dispatch (r : NlpResult) (context : ConvContext)
    (h : ∀ f, context.currentFlow = some f → f ∈ handlerWrittenFlows) :
    determineFlow r context ∈ registeredFlowNames ∧
    (flows.lookup (determineFlow r context)).isSome = true ∧
    (∀ env ent msg, ∃ g, (handleSearchFlow env ent msg).context.currentFlow = some g ∧
      g ∈ handlerWrittenFlows) := by
  have main : determineFlow r context ∈ registeredFlowNames ∧
      (flows.lookup (determineFlow r context)).isSome = true := by
    by_cases hhi : (0.7 : ℚ) < r.confidence
    · unfold determineFlow
      rw [if_pos hhi]
      split_ifs <;> exact ⟨by decide, by decide⟩
    · by_cases hmed : (0.4 : ℚ) < r.confidence ∧ jsTruthy context.currentFlow
      · unfold determineFlow
        rw [if_neg hhi, if_pos hmed]
        cases hcf : context.currentFlow with
        | none => simp [jsTruthy, hcf] at hmed
        | some f =>
          have hf := h f hcf
          simp only [Option.getD_some]
          fin_cases hf <;> exact ⟨by decide, by decide⟩
      · unfold determineFlow
        rw [if_neg hhi, if_neg hmed]
        exact ⟨by decide, by decide⟩
  refine ⟨main.1, main.2, ?_⟩
  intro env ent msg
  simp only [handleSearchFlow]
  split_ifs <;> exact ⟨_, rfl, by decide⟩

/-- Witness for C10 at a low-confidence result and the empty context. -/
theorem determineFlow_total_dispatch_witness :
    determineFlow { intent := "hello there", confidence := 0.2 } {} ∈ registeredFlowNames ∧
    (flows.lookup (determineFlow { intent := "hello there", confidence := 0.2 } {})).isSome = true :=
  ⟨(determineFlow_total_dispatch { intent := "hello there", confidence := 0.2 } {}
      (fun _ hf => Option.noConfusion hf)).1,
   (determineFlow_total_dispatch { intent := "hello there", confidence := 0.2 } {}
      (fun _ hf => Option.noConfusion hf)).2.1⟩

end Chatbot
